import Mathlib

/-!
# ISO-AI backend: control-assessment pipeline, shallow embedding

This file embeds the control-assessment pipeline of
`src/iso-ai-backend/main.py` and proves properties of it:

* the oracle invocation and reply parsing of `analyze_control`
  (main.py lines 112-184),
* the per-control result construction and the aggregation loop of
  `analyze_pdf` (lines 527-543),
* the summary statistics (lines 546-559),
* the HTML escaping, status/risk CSS classes and table-row rendering of
  `generate_html_report` (lines 447-473),
* the temp-file and report-artifact effects of an `/analyze` request
  (lines 509-578).

I/O (the HTTP round trip, pdfplumber extraction, file writes) is made
explicit: the oracle becomes a function from a control and the extracted
text to the outcome of the round trip, extraction becomes an
`Except Unit String`, and the filesystem effects of a request are recorded
in a small effects record.  Python exceptions become an error type carried
in `Except`.
-/

namespace ISOAI

/-- One ISO control record, as `load_iso_controls` reads a CSV row
(main.py lines 35-42). -/
structure Control where
  old_control_id : String
  old_title : String
  new_control_id : String
  new_title : String
  domain : String
  description : String
deriving DecidableEq

/-- The JSON object parsed from the oracle's reply content by
`json.loads(ai_response_text)` (main.py line 182).  `analyze_control`
performs no validation of this object, so each of the four fields the
backend later reads may be absent. -/
structure JsonReply where
  status : Option String
  justification : Option String
  risk_level : Option String
  recommendation : Option String
deriving DecidableEq

/-- Outcome of the oracle's HTTP round trip inside `analyze_control`
(main.py lines 172-182). -/
inductive OracleReply where
  /-- `response.raise_for_status()` raises (non-success HTTP status). -/
  | transportError
  /-- `json.loads` of the reply content raises (content is not JSON). -/
  | invalidJson
  /-- the reply content parses as a JSON object. -/
  | json (reply : JsonReply)
deriving DecidableEq

/-- The Python exceptions that abort an `/analyze` request. -/
inductive PyError where
  /-- `pdfplumber.open` fails: the upload is not a parseable PDF
  (main.py line 520). -/
  | extractionError
  /-- `requests.HTTPError` from `raise_for_status`, or `JSONDecodeError`
  from `json.loads`, inside `analyze_control` (lines 173, 182). -/
  | judgeError
  /-- `KeyError` when `analyze_pdf` reads a field that is absent from the
  parsed reply (lines 537-540). -/
  | keyError
deriving DecidableEq

/-- `analyze_control` (main.py lines 112-184): invokes the oracle and
returns the parsed JSON object **unvalidated**; a transport failure or
unparseable content raises. -/
def analyze_control (rep : OracleReply) : Except PyError JsonReply :=
  match rep with
  | .transportError => .error .judgeError
  | .invalidJson => .error .judgeError
  | .json reply => .ok reply

/-- One row of `analyze_pdf`'s `results` list (main.py lines 533-541). -/
structure AssessResult where
  control_id : String
  control_title : String
  domain : String
  status : String
  risk_level : String
  justification : String
  recommendation : String
deriving DecidableEq, Inhabited

/-- Building one `result` dict (main.py lines 533-541): the identifying
fields come from the control, the other four are read from the parsed
reply; reading an absent key raises `KeyError`.  The reads happen in the
source's order: `status`, then `risk_level`, `justification`,
`recommendation`. -/
def buildResult (control : Control) (analysis : JsonReply) :
    Except PyError AssessResult :=
  match analysis.status with
  | none => .error .keyError
  | some st =>
    match analysis.risk_level with
    | none => .error .keyError
    | some rl =>
      match analysis.justification with
      | none => .error .keyError
      | some ju =>
        match analysis.recommendation with
        | none => .error .keyError
        | some re =>
          .ok { control_id := control.new_control_id
                control_title := control.new_title
                domain := control.domain
                status := st
                risk_level := rl
                justification := ju
                recommendation := re }

/-- Judging one control: the oracle round trip followed by the result
construction (one iteration of the loop at main.py lines 528-543). -/
def processControl (control : Control) (rep : OracleReply) :
    Except PyError AssessResult :=
  (analyze_control rep).bind (buildResult control)

/-- The aggregation loop of `analyze_pdf` (main.py lines 527-543): the
catalog is traversed in order, each control judged in turn; the first
exception aborts the whole loop. -/
def runControls (oracle : Control → OracleReply) :
    List Control → Except PyError (List AssessResult)
  | [] => .ok []
  | control :: rest =>
    (processControl control (oracle control)).bind fun result =>
      (runControls oracle rest).bind fun others =>
        .ok (result :: others)

/-- The status literals the summary counts against (main.py lines 547-549)
and that the oracle is instructed to use (line 149). -/
def statusEnum : List String := ["MET", "PARTIALLY MET", "NOT MET"]

/-- The risk literals the oracle is instructed to use (main.py line 151). -/
def riskEnum : List String := ["LOW", "MEDIUM", "HIGH"]

/-- Round-half-to-even to an integer, the rounding of Python's built-in
`round`, taken exactly over `ℚ` (the binary-float representation of the
intermediate value is abstracted away). -/
def roundHalfEven (q : ℚ) : ℤ :=
  let f := q.floor
  let r := q - (f : ℚ)
  if r < 1 / 2 then f
  else if 1 / 2 < r then f + 1
  else if f % 2 = 0 then f else f + 1

/-- Python's `round(x, 2)` (main.py line 558), exactly over `ℚ`. -/
def pyRound2 (q : ℚ) : ℚ := (roundHalfEven (q * 100) : ℚ) / 100

/-- The `summary` dict of `analyze_pdf` (main.py lines 546-559). -/
structure Summary where
  total_controls : ℕ
  met_count : ℕ
  partially_met_count : ℕ
  not_met_count : ℕ
  compliance_percentage : ℚ
deriving DecidableEq

/-- Summary statistics over the results list (main.py lines 546-559):
each count is an exact string match against one literal;
`compliance_percentage = met/total*100` when `total > 0`, else `0`,
then rounded to two decimal places. -/
def mkSummary (results : List AssessResult) : Summary :=
  let total := results.length
  let met := results.countP fun r => r.status == "MET"
  let pm := results.countP fun r => r.status == "PARTIALLY MET"
  let nm := results.countP fun r => r.status == "NOT MET"
  { total_controls := total
    met_count := met
    partially_met_count := pm
    not_met_count := nm
    compliance_percentage :=
      pyRound2 (if 0 < total then (met : ℚ) / (total : ℚ) * 100 else 0) }

/-- The filesystem effects of one `/analyze` request: whether the
temporary upload file was removed (the `finally` at main.py lines
575-578), and whether the two report artifacts were written
(lines 562, 566). -/
structure RunEffects where
  tempRemoved : Bool
  htmlWritten : Bool
  pdfWritten : Bool
deriving DecidableEq

/-- The body of the `/analyze` handler `analyze_pdf`
(main.py lines 509-578) after the upload is saved to the temp file:
extraction, the aggregation loop, the summary, and the two report writes,
with the `finally` removing the temp file on every path.  `extraction` is
the outcome of the pdfplumber extraction (lines 518-524), `oracle` the
outcome of the round trip for a control and the extracted text. -/
def analyze_pdf (catalog : List Control) (extraction : Except Unit String)
    (oracle : Control → String → OracleReply) :
    Except PyError (Summary × List AssessResult) × RunEffects :=
  match extraction with
  | .error _ =>
    (.error .extractionError,
     { tempRemoved := true, htmlWritten := false, pdfWritten := false })
  | .ok text =>
    match runControls (fun c => oracle c text) catalog with
    | .error e =>
      (.error e,
       { tempRemoved := true, htmlWritten := false, pdfWritten := false })
    | .ok results =>
      (.ok (mkSummary results, results),
       { tempRemoved := true, htmlWritten := true, pdfWritten := true })

/-- The summary of a request's outcome, when the request succeeded. -/
def runSummary (out : Except PyError (Summary × List AssessResult) × RunEffects) :
    Option Summary :=
  match out.1 with
  | .ok (s, _) => some s
  | .error _ => none

/-- The results list of a request's outcome, when the request succeeded. -/
def runResults (out : Except PyError (Summary × List AssessResult) × RunEffects) :
    Option (List AssessResult) :=
  match out.1 with
  | .ok (_, rs) => some rs
  | .error _ => none

/-- The four counter fields of a request's summary, when the request
succeeded (the `compliance_percentage` field is left aside so that the
tuple is a decidably-comparable value). -/
def runCounts (out : Except PyError (Summary × List AssessResult) × RunEffects) :
    Option (ℕ × ℕ × ℕ × ℕ) :=
  (runSummary out).map fun s =>
    (s.total_controls, s.met_count, s.partially_met_count, s.not_met_count)

/-! ## The HTML report (`generate_html_report`, main.py lines 186-487) -/

/-- One pass of Python's `str.replace` for a single-character pattern:
every occurrence of `c` is replaced by `rep` (`generate_html_report`
chains four such passes, main.py line 462). -/
def replaceChar (c : Char) (rep : List Char) (l : List Char) : List Char :=
  l.flatMap fun a => if a = c then rep else [a]

/-- The character list of `escape_html text` (main.py lines 461-462):
`str(text).replace("&", "&amp;").replace("<", "&lt;").replace(">", "&gt;")
.replace('"', "&quot;")`, the passes applied in the source's order. -/
def escapeList (l : List Char) : List Char :=
  replaceChar '"' "&quot;".data
    (replaceChar '>' "&gt;".data
      (replaceChar '<' "&lt;".data
        (replaceChar '&' "&amp;".data l)))

/-- `escape_html` (main.py lines 461-462). -/
def escape_html (text : String) : String := String.mk (escapeList text.data)

/-- The status CSS class of one table row (main.py lines 449-455):
`"MET"` and `"PARTIALLY MET"` are matched exactly, everything else falls
into the `else` branch. -/
def statusClass (status : String) : String :=
  if status = "MET" then "status-met"
  else if status = "PARTIALLY MET" then "status-partially-met"
  else "status-not-met"

/-- The risk CSS class of one table row (main.py line 458):
`f"risk-{result['risk_level'].lower()}"` (lower-casing applied character
by character, as Python's `str.lower` does on the ASCII risk values). -/
def riskClass (risk : String) : String :=
  "risk-" ++ String.mk (risk.data.map Char.toLower)

/-- One `<tr>` of the report table (main.py lines 464-473), with the
source's indentation and line breaks. -/
def renderRow (r : AssessResult) : String :=
  "                    <tr>\n" ++
  "                        <td>" ++ escape_html r.control_id ++ "</td>\n" ++
  "                        <td>" ++ escape_html r.control_title ++ "</td>\n" ++
  "                        <td>" ++ escape_html r.domain ++ "</td>\n" ++
  "                        <td><span class=\"" ++ statusClass r.status ++ "\">" ++
    escape_html r.status ++ "</span></td>\n" ++
  "                        <td><span class=\"" ++ riskClass r.risk_level ++ "\">" ++
    escape_html r.risk_level ++ "</span></td>\n" ++
  "                        <td class=\"justification\">" ++
    escape_html r.justification ++ "</td>\n" ++
  "                        <td class=\"recommendation\">" ++
    escape_html r.recommendation ++ "</td>\n" ++
  "                    </tr>\n"

/-- The report table's body: one row per result, in results order
(main.py line 447). -/
def renderRows (results : List AssessResult) : String :=
  String.join (results.map renderRow)

/-- Modelled from the spec: "the five markup metacharacters" of §4.5 and
§8 (the spec's own list shows `&`, `<`, `>`, `"`; the fifth markup
metacharacter of HTML is the single quote). -/
def markupMetachars : List Char := ['&', '<', '>', '"', '\'']

/-- Whether judging one control aborts the request: the oracle round trip
failed, the reply was not JSON, or the parsed object lacks one of the four
fields the backend reads. -/
def controlFails : OracleReply → Bool
  | .transportError => true
  | .invalidJson => true
  | .json r =>
    r.status.isNone || r.risk_level.isNone ||
      r.justification.isNone || r.recommendation.isNone

/-! ## Helper lemmas -/

/-- A successfully built result takes its identifying fields from the
control, whatever the reply held. -/
theorem processControl_ok_fields {c : Control} {rep : OracleReply}
    {r : AssessResult} (h : processControl c rep = .ok r) :
    r.control_id = c.new_control_id ∧ r.control_title = c.new_title ∧
      r.domain = c.domain := by
  cases rep with
  | transportError => simp [processControl, analyze_control, Except.bind] at h
  | invalidJson => simp [processControl, analyze_control, Except.bind] at h
  | json reply =>
    obtain ⟨st, ju, rl, re⟩ := reply
    cases st with
    | none => simp [processControl, analyze_control, Except.bind, buildResult] at h
    | some st =>
      cases rl with
      | none => simp [processControl, analyze_control, Except.bind, buildResult] at h
      | some rl =>
        cases ju with
        | none => simp [processControl, analyze_control, Except.bind, buildResult] at h
        | some ju =>
          cases re with
          | none => simp [processControl, analyze_control, Except.bind, buildResult] at h
          | some re =>
            simp [processControl, analyze_control, Except.bind, buildResult] at h
            subst h
            exact ⟨rfl, rfl, rfl⟩

/-- A control whose judging fails produces an exception, whatever the
control. -/
theorem controlFails_error {rep : OracleReply} (h : controlFails rep = true)
    (c : Control) : ∃ e, processControl c rep = .error e := by
  cases rep with
  | transportError => exact ⟨.judgeError, rfl⟩
  | invalidJson => exact ⟨.judgeError, rfl⟩
  | json reply =>
    obtain ⟨st, ju, rl, re⟩ := reply
    cases st with
    | none => exact ⟨.keyError, rfl⟩
    | some st =>
      cases rl with
      | none => exact ⟨.keyError, rfl⟩
      | some rl =>
        cases ju with
        | none => exact ⟨.keyError, rfl⟩
        | some ju =>
          cases re with
          | none => exact ⟨.keyError, rfl⟩
          | some re => simp [controlFails] at h

/-- The identifying fields of an aggregation run, position by position:
they are exactly the catalog's, in catalog order. -/
theorem runControls_ok_map {o : Control → OracleReply} :
    ∀ {catalog : List Control} {rs : List AssessResult},
      runControls o catalog = .ok rs →
      rs.map (fun r => (r.control_id, r.control_title, r.domain)) =
        catalog.map (fun c => (c.new_control_id, c.new_title, c.domain)) := by
  intro catalog
  induction catalog with
  | nil =>
    intro rs h
    simp [runControls] at h
    subst h
    rfl
  | cons c rest ih =>
    intro rs h
    rw [runControls] at h
    cases hp : processControl c (o c) with
    | error e => rw [hp] at h; simp [Except.bind] at h
    | ok result =>
      rw [hp] at h
      cases hr : runControls o rest with
      | error e => rw [hr] at h; simp [Except.bind] at h
      | ok others =>
        rw [hr] at h
        simp [Except.bind] at h
        subst h
        obtain ⟨h1, h2, h3⟩ := processControl_ok_fields hp
        simp [List.map, h1, h2, h3, ih hr]

/-- If judging fails on a member of the catalog, the whole aggregation
loop raises. -/
theorem runControls_fails {o : Control → OracleReply} {c : Control} :
    ∀ {catalog : List Control}, c ∈ catalog → controlFails (o c) = true →
      ∃ e, runControls o catalog = .error e := by
  intro catalog
  induction catalog with
  | nil => intro hm; exact absurd hm (List.not_mem_nil c)
  | cons c' rest ih =>
    intro hm hf
    rcases List.mem_cons.mp hm with hc | hc
    · subst hc
      obtain ⟨e, he⟩ := controlFails_error hf c
      exact ⟨e, by rw [runControls, he]; rfl⟩
    · cases hp : processControl c' (o c') with
      | error e => exact ⟨e, by rw [runControls, hp]; rfl⟩
      | ok result =>
        obtain ⟨e, he⟩ := ih hc hf
        exact ⟨e, by rw [runControls, hp, he]; rfl⟩

/-- A successful request's results have the catalog's identifying fields,
in catalog order. -/
theorem runResults_some_map {catalog : List Control}
    {extraction : Except Unit String} {oracle : Control → String → OracleReply}
    {rs : List AssessResult}
    (h : runResults (analyze_pdf catalog extraction oracle) = some rs) :
    rs.map (fun r => (r.control_id, r.control_title, r.domain)) =
      catalog.map (fun c => (c.new_control_id, c.new_title, c.domain)) := by
  cases extraction with
  | error u => simp [analyze_pdf, runResults] at h
  | ok text =>
    cases hr : runControls (fun c => oracle c text) catalog with
    | error e => simp [analyze_pdf, hr, runResults] at h
    | ok results =>
      simp [analyze_pdf, hr, runResults] at h
      subst h
      exact runControls_ok_map hr

/-- Three pairwise-exclusive counters over one list sum to at most its
length. -/
theorem countP_three_le {α : Type} (p q t : α → Bool) (l : List α)
    (hpq : ∀ a, p a = true → q a = false)
    (hpt : ∀ a, p a = true → t a = false)
    (hqt : ∀ a, q a = true → t a = false) :
    l.countP p + l.countP q + l.countP t ≤ l.length := by
  induction l with
  | nil => simp
  | cons a l ih =>
    simp only [List.countP_cons, List.length_cons]
    cases hp : p a <;> cases hq : q a <;> cases ht : t a <;>
      simp_all <;> omega

/-- When every status is one of the three counted literals, the three
counters sum exactly to the length. -/
theorem countP_status_sum (results : List AssessResult)
    (h : ∀ r ∈ results, r.status ∈ statusEnum) :
    results.countP (fun r => r.status == "MET") +
      results.countP (fun r => r.status == "PARTIALLY MET") +
      results.countP (fun r => r.status == "NOT MET") = results.length := by
  induction results with
  | nil => simp
  | cons r l ih =>
    have hr := h r (List.mem_cons_self r l)
    have hl : ∀ x ∈ l, x.status ∈ statusEnum :=
      fun x hx => h x (List.mem_cons_of_mem r hx)
    simp only [List.countP_cons, List.length_cons]
    have hsum := ih hl
    simp only [statusEnum, List.mem_cons, List.not_mem_nil, or_false] at hr
    rcases hr with hs | hs | hs <;> simp [hs] <;> omega

/-- What one single-character replacement pass can emit: a character of
the replacement text, or an unreplaced character of the input. -/
theorem mem_replaceChar {x c : Char} {rep l : List Char}
    (h : x ∈ replaceChar c rep l) : x ∈ rep ∨ (x ∈ l ∧ x ≠ c) := by
  unfold replaceChar at h
  rw [List.mem_flatMap] at h
  obtain ⟨a, ha, hx⟩ := h
  by_cases hac : a = c
  · rw [if_pos hac] at hx
    exact Or.inl hx
  · rw [if_neg hac] at hx
    simp only [List.mem_singleton] at hx
    subst hx
    exact Or.inr ⟨ha, hac⟩

/-- No raw `<`, `>` or `"` survives the four escaping passes. -/
theorem escapeList_no_raw (l : List Char) :
    '<' ∉ escapeList l ∧ '>' ∉ escapeList l ∧ '"' ∉ escapeList l := by
  refine ⟨fun h => ?_, fun h => ?_, fun h => ?_⟩
  · unfold escapeList at h
    rcases mem_replaceChar h with h | ⟨h, _⟩
    · exact absurd h (by decide)
    rcases mem_replaceChar h with h | ⟨h, _⟩
    · exact absurd h (by decide)
    rcases mem_replaceChar h with h | ⟨_, hne⟩
    · exact absurd h (by decide)
    exact hne rfl
  · unfold escapeList at h
    rcases mem_replaceChar h with h | ⟨h, _⟩
    · exact absurd h (by decide)
    rcases mem_replaceChar h with h | ⟨_, hne⟩
    · exact absurd h (by decide)
    exact hne rfl
  · unfold escapeList at h
    rcases mem_replaceChar h with h | ⟨_, hne⟩
    · exact absurd h (by decide)
    exact hne rfl

/-- Python's `round(0, 2)` is `0`. -/
theorem pyRound2_zero : pyRound2 0 = 0 := by
  simp [pyRound2, roundHalfEven, Rat.floor]

/-! ## Concrete inputs for witnesses and counterexamples -/

/-- A one-control catalog entry. -/
def cexControl : Control :=
  { old_control_id := "A.5.1.1"
    old_title := "Policies for information security"
    new_control_id := "5.1"
    new_title := "Policies for information security"
    domain := "Organizational controls"
    description := "An information security policy shall be defined." }

/-- A well-formed oracle reply with status `MET`. -/
def metReply : JsonReply :=
  ⟨some "MET", some "Section 2 defines the policy.", some "LOW",
   some "Maintain the policy."⟩

/-- A well-formed oracle reply with status `NOT MET`. -/
def notMetReply : JsonReply :=
  ⟨some "NOT MET", some "No evidence found.", some "HIGH",
   some "Write the policy."⟩

/-- A reply with all four fields present whose status is outside the
three counted literals. -/
def unknownStatusReply : JsonReply :=
  ⟨some "UNKNOWN", some "Unclear.", some "LOW", some "Review."⟩

/-- A reply with all four fields present whose status and risk level both
lie outside their closed enums. -/
def maybeReply : JsonReply :=
  ⟨some "MAYBE", some "No evidence either way.", some "BANANA", some "Review."⟩

/-- The result row `analyze_pdf` builds from `cexControl` and `metReply`. -/
def metResult : AssessResult :=
  ⟨"5.1", "Policies for information security", "Organizational controls",
   "MET", "LOW", "Section 2 defines the policy.", "Maintain the policy."⟩

/-- The result row `analyze_pdf` builds from `cexControl` and `notMetReply`. -/
def notMetResult : AssessResult :=
  ⟨"5.1", "Policies for information security", "Organizational controls",
   "NOT MET", "HIGH", "No evidence found.", "Write the policy."⟩

/-- The result row `analyze_pdf` builds from `cexControl` and
`unknownStatusReply`: its status matches none of the three counted
literals. -/
def unknownResult : AssessResult :=
  ⟨"5.1", "Policies for information security", "Organizational controls",
   "UNKNOWN", "LOW", "Unclear.", "Review."⟩

/-- A catalog entry with a given id, for the ten-control scenario. -/
def mkCtrl (id : String) : Control := ⟨"", "", id, "Title", "Domain", "desc"⟩

/-- A ten-control catalog. -/
def catalog10 : List Control :=
  [mkCtrl "C1", mkCtrl "C2", mkCtrl "C3", mkCtrl "C4", mkCtrl "C5",
   mkCtrl "C6", mkCtrl "C7", mkCtrl "C8", mkCtrl "C9", mkCtrl "C10"]

/-- An oracle returning valid verdicts for nine controls of `catalog10`
and a malformed (non-JSON) reply for the tenth. -/
def oracle9of10 : Control → String → OracleReply :=
  fun c _ => if c.new_control_id = "C10" then .invalidJson else .json metReply

/-! ## The claims -/

/-- C1 (as stated, refuted): the summary's three counters do **not** sum
to `total_controls` for every status string the oracle may return.  A
successful run over a one-control catalog whose (unvalidated) reply
carries status `"UNKNOWN"` yields `total_controls = 1` with all three
counters `0`. -/
theorem C1_counterexample :
    runCounts (analyze_pdf [cexControl] (Except.ok "")
        (fun _ _ => .json unknownStatusReply)) = some (1, 0, 0, 0) ∧
      ¬ (0 + 0 + 0 = 1) :=
  ⟨by decide, by decide⟩

/-- C1 (amended): after a successful `/analyze` run, if every result's
status is one of the three counted literals `MET`, `PARTIALLY MET`,
`NOT MET`, then `met_count + partially_met_count + not_met_count =
total_controls`. -/
theorem C1_sum_counts (catalog : List Control) (extraction : Except Unit String)
    (oracle : Control → String → OracleReply)
    (total met pm nm : ℕ) (rs : List AssessResult)
    (hc : runCounts (analyze_pdf catalog extraction oracle) = some (total, met, pm, nm))
    (hr : runResults (analyze_pdf catalog extraction oracle) = some rs)
    (henum : ∀ r ∈ rs, r.status ∈ statusEnum) :
    met + pm + nm = total := by
  cases extraction with
  | error u => simp [analyze_pdf, runCounts, runSummary] at hc
  | ok text =>
    cases hrun : runControls (fun c => oracle c text) catalog with
    | error e => simp [analyze_pdf, hrun, runCounts, runSummary] at hc
    | ok results =>
      simp [analyze_pdf, hrun, runCounts, runSummary, runResults, mkSummary] at hc hr
      obtain ⟨h1, h2, h3, h4⟩ := hc
      subst hr h1 h2 h3 h4
      exact countP_status_sum results henum

/-- C1 witness: a successful one-control run whose status is `MET`
satisfies the amended sum. -/
theorem C1_witness : 1 + 0 + 0 = 1 :=
  C1_sum_counts [cexControl] (Except.ok "") (fun _ _ => .json metReply)
    1 1 0 0 [metResult] (by decide) (by decide) (by decide)

/-- C2 (as stated, refuted): a reply whose status (`"MAYBE"`) and risk
level (`"BANANA"`) lie outside their closed enums is **not** rejected:
`analyze_control` returns it unvalidated and the run accepts it into the
results. -/
theorem C2_counterexample :
    ("MAYBE" ∈ statusEnum → False) ∧ ("BANANA" ∈ riskEnum → False) ∧
    analyze_control (.json maybeReply) = .ok maybeReply ∧
    runResults (analyze_pdf [cexControl] (Except.ok "")
        (fun _ _ => .json maybeReply)) =
      some [⟨"5.1", "Policies for information security",
             "Organizational controls", "MAYBE", "BANANA",
             "No evidence either way.", "Review."⟩] :=
  ⟨by decide, by decide, rfl, by decide⟩

/-- C2 (amended): a transport failure or non-JSON reply raises a Judge
error, and a reply missing any of the four fields raises a missing-key
error when the fields are read — neither is coerced into a default
verdict; but a reply with all four fields present is accepted into the
results verbatim, its `status` and `risk_level` values unvalidated. -/
theorem C2_reply_validation (c : Control) (r : JsonReply) :
    processControl c .transportError = .error .judgeError ∧
    processControl c .invalidJson = .error .judgeError ∧
    ((r.status = none ∨ r.risk_level = none ∨ r.justification = none ∨
        r.recommendation = none) →
      processControl c (.json r) = .error .keyError) ∧
    (∀ st ju rl re,
      processControl c (.json ⟨some st, some ju, some rl, some re⟩) =
        .ok ⟨c.new_control_id, c.new_title, c.domain, st, rl, ju, re⟩) := by
  refine ⟨rfl, rfl, ?_, fun st ju rl re => rfl⟩
  intro h
  obtain ⟨st, ju, rl, re⟩ := r
  cases st with
  | none => rfl
  | some st =>
    cases rl with
    | none => rfl
    | some rl =>
      cases ju with
      | none => rfl
      | some ju =>
        cases re with
        | none => rfl
        | some re => rcases h with h | h | h | h <;> simp at h

/-- C3 (as stated, refuted): the fifth markup metacharacter, the single
quote, passes through `escape_html` unescaped. -/
theorem C3_counterexample :
    '\'' ∈ markupMetachars ∧ escape_html "'" = "'" :=
  ⟨by decide, by decide⟩

/-- C3 (amended): `escape_html` escapes four of the five markup
metacharacters — no raw `<`, `>` or `"` survives it, each of `&`, `<`,
`>`, `"` becomes its entity, and the `<script>&"` example appears only in
escaped form — while the single quote is left alone (see the
counterexample). -/
theorem C3_escaping (s : String) :
    ('<' ∉ (escape_html s).data ∧ '>' ∉ (escape_html s).data ∧
      '"' ∉ (escape_html s).data) ∧
    escape_html "&" = "&amp;" ∧ escape_html "<" = "&lt;" ∧
    escape_html ">" = "&gt;" ∧ escape_html "\"" = "&quot;" ∧
    escape_html "<script>&\"" = "&lt;script&gt;&amp;&quot;" :=
  ⟨escapeList_no_raw s.data, by decide, by decide, by decide, by decide,
   by decide⟩

/-- C4: if the Judge fails on any control of the catalog, the whole
`/analyze` request fails: no summary is produced and neither report
artifact is written, while the temp file is still removed. -/
theorem C4_judge_failure_aborts (catalog : List Control) (text : String)
    (oracle : Control → String → OracleReply) (c : Control)
    (hm : c ∈ catalog) (hf : controlFails (oracle c text) = true) :
    runSummary (analyze_pdf catalog (Except.ok text) oracle) = none ∧
    (analyze_pdf catalog (Except.ok text) oracle).2.htmlWritten = false ∧
    (analyze_pdf catalog (Except.ok text) oracle).2.pdfWritten = false ∧
    (analyze_pdf catalog (Except.ok text) oracle).2.tempRemoved = true := by
  obtain ⟨e, he⟩ := runControls_fails (o := fun c => oracle c text) (c := c) hm hf
  simp [analyze_pdf, he, runSummary]

/-- C4 witness: the ten-control scenario — nine valid verdicts, a
malformed reply for the tenth — fails the whole request and writes no
artifact. -/
theorem C4_witness :
    runSummary (analyze_pdf catalog10 (Except.ok "policy text") oracle9of10) = none ∧
    (analyze_pdf catalog10 (Except.ok "policy text") oracle9of10).2.htmlWritten = false ∧
    (analyze_pdf catalog10 (Except.ok "policy text") oracle9of10).2.pdfWritten = false ∧
    (analyze_pdf catalog10 (Except.ok "policy text") oracle9of10).2.tempRemoved = true :=
  C4_judge_failure_aborts catalog10 "policy text" oracle9of10 (mkCtrl "C10")
    (by decide) (by decide)

/-- C5: the summary's `compliance_percentage` equals
`met_count / total_controls * 100` rounded to two decimal places when
`total_controls > 0`, and `0` when `total_controls = 0` (Python's float
rounding is modelled exactly over `ℚ`). -/
theorem C5_compliance_percentage (results : List AssessResult) :
    (mkSummary results).compliance_percentage =
      if 0 < (mkSummary results).total_controls then
        pyRound2 (((mkSummary results).met_count : ℚ) /
          ((mkSummary results).total_controls : ℚ) * 100)
      else 0 := by
  by_cases h : 0 < results.length
  · simp [mkSummary, h]
  · simp [mkSummary, h, pyRound2_zero]

/-- C6: a successful run returns one result per catalog entry, in catalog
order: the lists have the same length and the results' `control_id`
column is exactly the catalog's `new_control_id` column. -/
theorem C6_catalog_order (catalog : List Control)
    (extraction : Except Unit String) (oracle : Control → String → OracleReply)
    (results : List AssessResult)
    (h : runResults (analyze_pdf catalog extraction oracle) = some results) :
    results.length = catalog.length ∧
    results.map (fun r => r.control_id) =
      catalog.map (fun c => c.new_control_id) := by
  have hmap := runResults_some_map h
  constructor
  · simpa using congrArg List.length hmap
  · have h2 := congrArg (List.map Prod.fst) hmap
    simpa [List.map_map, Function.comp] using h2

/-- C6 witness: a successful one-control run preserves the catalog's id
at position 0. -/
theorem C6_witness :
    ([metResult] : List AssessResult).length = ([cexControl] : List Control).length ∧
    ([metResult] : List AssessResult).map (fun r => r.control_id) =
      ([cexControl] : List Control).map (fun c => c.new_control_id) :=
  C6_catalog_order [cexControl] (Except.ok "") (fun _ _ => .json metReply)
    [metResult] (by decide)

/-- C7: on every exit path of an `/analyze` request — success, extraction
failure, or a Judge failure on any control — the temporary upload file is
removed. -/
theorem C7_temp_always_removed (catalog : List Control)
    (extraction : Except Unit String)
    (oracle : Control → String → OracleReply) :
    (analyze_pdf catalog extraction oracle).2.tempRemoved = true := by
  cases extraction with
  | error u => rfl
  | ok text =>
    cases h : runControls (fun c => oracle c text) catalog with
    | error e => simp [analyze_pdf, h]
    | ok results => simp [analyze_pdf, h]

/-- C8: for any results list, the three counters sum to at most
`total_controls`, each counter is at most `total_controls`, and a result
whose status matches none of the three literals increments no counter. -/
theorem C8_count_bounds (results : List AssessResult) (r : AssessResult) :
    ((mkSummary results).met_count + (mkSummary results).partially_met_count +
        (mkSummary results).not_met_count ≤ (mkSummary results).total_controls) ∧
    (mkSummary results).met_count ≤ (mkSummary results).total_controls ∧
    (mkSummary results).partially_met_count ≤ (mkSummary results).total_controls ∧
    (mkSummary results).not_met_count ≤ (mkSummary results).total_controls ∧
    (r.status ∉ statusEnum →
      (mkSummary (r :: results)).met_count = (mkSummary results).met_count ∧
      (mkSummary (r :: results)).partially_met_count =
        (mkSummary results).partially_met_count ∧
      (mkSummary (r :: results)).not_met_count =
        (mkSummary results).not_met_count) := by
  have hex : ∀ (x y : String), x ≠ y → ∀ (a : AssessResult),
      (a.status == x) = true → (a.status == y) = false := by
    intro x y hxy a ha
    rw [beq_iff_eq] at ha
    rw [beq_eq_false_iff_ne, ha]
    exact hxy
  refine ⟨?_, ?_, ?_, ?_, ?_⟩
  · simp only [mkSummary]
    exact countP_three_le _ _ _ results
      (hex "MET" "PARTIALLY MET" (by decide))
      (hex "MET" "NOT MET" (by decide))
      (hex "PARTIALLY MET" "NOT MET" (by decide))
  · simp only [mkSummary]
    exact List.countP_le_length _
  · simp only [mkSummary]
    exact List.countP_le_length _
  · simp only [mkSummary]
    exact List.countP_le_length _
  · intro hnot
    simp only [statusEnum, List.mem_cons, List.not_mem_nil, or_false,
      not_or] at hnot
    obtain ⟨h1, h2, h3⟩ := hnot
    refine ⟨?_, ?_, ?_⟩ <;>
      simp [mkSummary, List.countP_cons, beq_iff_eq, h1, h2, h3]

/-- C8 witness: the bounds at a concrete two-row list, and that adding a
row with the unrecognized status `"UNKNOWN"` changes no counter. -/
theorem C8_witness :
    ((mkSummary [metResult, notMetResult]).met_count +
        (mkSummary [metResult, notMetResult]).partially_met_count +
        (mkSummary [metResult, notMetResult]).not_met_count ≤
        (mkSummary [metResult, notMetResult]).total_controls) ∧
    (mkSummary [metResult, notMetResult]).met_count ≤
      (mkSummary [metResult, notMetResult]).total_controls ∧
    (mkSummary [metResult, notMetResult]).partially_met_count ≤
      (mkSummary [metResult, notMetResult]).total_controls ∧
    (mkSummary [metResult, notMetResult]).not_met_count ≤
      (mkSummary [metResult, notMetResult]).total_controls ∧
    (unknownResult.status ∉ statusEnum →
      (mkSummary (unknownResult :: [metResult, notMetResult])).met_count =
        (mkSummary [metResult, notMetResult]).met_count ∧
      (mkSummary (unknownResult :: [metResult, notMetResult])).partially_met_count =
        (mkSummary [metResult, notMetResult]).partially_met_count ∧
      (mkSummary (unknownResult :: [metResult, notMetResult])).not_met_count =
        (mkSummary [metResult, notMetResult]).not_met_count) :=
  C8_count_bounds [metResult, notMetResult] unknownResult

/-- C9: the identifying columns of the results are a function of the
catalog alone — two successful runs over the same catalog, with any two
oracles and any two extracted texts, agree on `control_id`,
`control_title` and `domain` at every position. -/
theorem C9_oracle_independent_identity (catalog : List Control)
    (e1 e2 : Except Unit String) (o1 o2 : Control → String → OracleReply)
    (r1 r2 : List AssessResult)
    (h1 : runResults (analyze_pdf catalog e1 o1) = some r1)
    (h2 : runResults (analyze_pdf catalog e2 o2) = some r2) :
    r1.map (fun r => (r.control_id, r.control_title, r.domain)) =
      r2.map (fun r => (r.control_id, r.control_title, r.domain)) :=
  (runResults_some_map h1).trans (runResults_some_map h2).symm

/-- C9 witness: two one-control runs with different oracle verdicts
(`MET` vs `NOT MET`, different justifications) have identical identifying
columns. -/
theorem C9_witness :
    ([metResult] : List AssessResult).map
        (fun r => (r.control_id, r.control_title, r.domain)) =
      ([notMetResult] : List AssessResult).map
        (fun r => (r.control_id, r.control_title, r.domain)) :=
  C9_oracle_independent_identity [cexControl] (Except.ok "")
    (Except.ok "other text") (fun _ _ => .json metReply)
    (fun _ _ => .json notMetReply) [metResult] [notMetResult]
    (by decide) (by decide)

/-- C10: `"MET"` alone is tagged `status-met`, `"PARTIALLY MET"` alone is
tagged `status-partially-met`, and every other status string — any
unrecognized value included — is tagged `status-not-met`. -/
theorem C10_status_class (s : String) :
    (statusClass s = "status-met" ↔ s = "MET") ∧
    (statusClass s = "status-partially-met" ↔ s = "PARTIALLY MET") ∧
    (statusClass s = "status-not-met" ↔
      ¬ (s = "MET") ∧ ¬ (s = "PARTIALLY MET")) := by
  unfold statusClass
  by_cases h1 : s = "MET"
  · simp [h1]
  · by_cases h2 : s = "PARTIALLY MET"
    · simp [h1, h2]
    · simp [h1, h2]

end ISOAI
